import Mathlib

/-!
Verification of the connection lifecycle manager, tool adapter and
streaming-event pipeline of the eclaircp repository, against its
natural-language specification.

The Lean definitions below are a shallow embedding of the Python code in
src/eclaircp/mcp.py, src/eclaircp/session.py and src/eclaircp/config.py.
Loosely typed Python values are modelled by the inductive type PyVal;
Python exceptions are modelled by Except; the asynchronous effects of the
code (transport handshakes, the reasoning engine stream, sleeping) are
modelled by explicit oracle parameters, and the observable effects of a
call (attempts performed, backoff sleeps, transport round-trips, yielded
events) are returned as explicit traces.
-/

namespace EclairCP

/-! ## Python-like dynamic values -/

/-- Dynamically typed Python values, restricted to the shapes that flow
through the embedded code: None, strings, integers, booleans, lists and
string-keyed dictionaries. -/
inductive PyVal where
  | pynone : PyVal
  | pystr : String → PyVal
  | pyint : Int → PyVal
  | pybool : Bool → PyVal
  | pylist : List PyVal → PyVal
  | pydict : List (String × PyVal) → PyVal

/-- Single-quote character as a string, used when rendering Python repr
output. -/
def pyQ : String := String.singleton (Char.ofNat 39)

mutual

/-- Structural equality of Python values, mirroring Python equality on the
value shapes of this model (equality between values of different types is
false, as it is in Python for the types occurring here). -/
def pyBeq : PyVal → PyVal → Bool
  | .pynone, .pynone => true
  | .pystr a, .pystr b => a == b
  | .pyint a, .pyint b => a == b
  | .pybool a, .pybool b => a == b
  | .pylist xs, .pylist ys => pyBeqL xs ys
  | .pydict xs, .pydict ys => pyBeqD xs ys
  | _, _ => false

/-- Pointwise equality of Python lists. -/
def pyBeqL : List PyVal → List PyVal → Bool
  | [], [] => true
  | x :: xs, y :: ys => pyBeq x y && pyBeqL xs ys
  | _, _ => false

/-- Pointwise equality of Python dictionaries in insertion order. -/
def pyBeqD : List (String × PyVal) → List (String × PyVal) → Bool
  | [], [] => true
  | x :: xs, y :: ys => x.1 == y.1 && pyBeq x.2 y.2 && pyBeqD xs ys
  | _, _ => false

end

mutual

/-- Python repr of a value: strings are quoted, None renders as None,
booleans as True and False, containers recurse with repr on elements. -/
def pyRepr : PyVal → String
  | .pynone => "None"
  | .pystr s => pyQ ++ s ++ pyQ
  | .pyint n => toString n
  | .pybool b => if b then "True" else "False"
  | .pylist xs => "[" ++ pyReprL xs ++ "]"
  | .pydict es => "\x7b" ++ pyReprD es ++ "\x7d"

/-- Comma-separated repr of Python list elements. -/
def pyReprL : List PyVal → String
  | [] => ""
  | [x] => pyRepr x
  | x :: xs => pyRepr x ++ ", " ++ pyReprL xs

/-- Comma-separated repr of Python dictionary entries. -/
def pyReprD : List (String × PyVal) → String
  | [] => ""
  | [e] => pyQ ++ e.1 ++ pyQ ++ ": " ++ pyRepr e.2
  | e :: es => pyQ ++ e.1 ++ pyQ ++ ": " ++ pyRepr e.2 ++ ", " ++ pyReprD es

end

/-- Python str of a value: a string renders as itself, anything else as
its repr. -/
def pyStr : PyVal → String
  | .pystr s => s
  | v => pyRepr v

/-- Lookup of a string key in a Python dictionary modelled as an
association list in insertion order. -/
def pyLookup (key : String) : List (String × PyVal) → Option PyVal
  | [] => none
  | e :: es => if e.1 = key then some e.2 else pyLookup key es

mutual

theorem pyBeq_refl : ∀ v, pyBeq v v = true
  | .pynone => rfl
  | .pystr s => by simp [pyBeq]
  | .pyint n => by simp [pyBeq]
  | .pybool b => by simp [pyBeq]
  | .pylist xs => by simp [pyBeq, pyBeqL_refl xs]
  | .pydict es => by simp [pyBeq, pyBeqD_refl es]

theorem pyBeqL_refl : ∀ xs, pyBeqL xs xs = true
  | [] => rfl
  | x :: xs => by simp [pyBeqL, pyBeq_refl x, pyBeqL_refl xs]

theorem pyBeqD_refl : ∀ es, pyBeqD es es = true
  | [] => rfl
  | e :: es => by simp [pyBeqD, pyBeq_refl e.2, pyBeqD_refl es]

end

/-! ## Configuration and connection data model (config.py) -/

/-- Embedding of MCPServerConfig from config.py: name, command, argument
list, environment overrides, handshake timeout and retry-attempt count. -/
structure MCPServerConfig where
  name : String
  command : String
  args : List String
  env : List (String × String)
  timeout : Nat
  retry_attempts : Nat

/-- Embedding of ToolInfo from config.py: a discovered operation with its
name, description and parameter schema. -/
structure ToolInfo where
  name : String
  description : String
  parameters : PyVal

/-- Embedding of ConnectionStatus from config.py. -/
structure ConnectionStatus where
  server_name : String
  connected : Bool
  connection_time : Option Nat := none
  error_message : Option String := none
  available_tools : List String := []

/-- Mutable fields of MCPClientManager from mcp.py. The client session and
the server process are modelled by presence flags. -/
structure ManagerState where
  connected_server : Option MCPServerConfig := none
  client_session : Bool := false
  server_process : Bool := false
  connection_status : ConnectionStatus := { server_name := "", connected := false }
  available_tools : List ToolInfo := []

/-- Embedding of MCPClientManager.disconnect: close errors are swallowed,
the process is terminated, and every connection field is reset. -/
def disconnect (_st : ManagerState) : ManagerState :=
  { connected_server := none
    client_session := false
    server_process := false
    connection_status := { server_name := "", connected := false }
    available_tools := [] }

/-- Embedding of MCPClientManager.is_connected. -/
def is_connected (st : ManagerState) : Bool :=
  st.connection_status.connected && st.client_session

/-! ## Connection establishment (MCPClientManager.connect) -/

/-- Outcome of the body of one connection attempt, as decided by the
environment: either the discovered tool list, or the message of the
exception the attempt raised (spawn failure, handshake failure, or the
timeout ConnectionError raised inside the attempt). -/
inductive AttemptOutcome where
  | ok : List ToolInfo → AttemptOutcome
  | fail : String → AttemptOutcome

/-- Observable actions performed by connect, in order: tearing down an
existing connection, running attempt number i, and sleeping n time units
of capped exponential backoff. -/
inductive ConnectAction where
  | tear_down : ConnectAction
  | attempt : Nat → ConnectAction
  | backoff : Nat → ConnectAction
deriving DecidableEq

/-- Result of a connect call: the trace of performed actions, the manager
state after the call, and either the returned value or the message of the
raised ConnectionError. -/
structure ConnectOutcome where
  actions : List ConnectAction
  state : ManagerState
  result : Except String Bool

/-- Embedding of the retry loop of MCPClientManager.connect. The oracle
gives the outcome of each attempt index; idx is the current attempt index,
lastErr the last recorded error and the final argument the number of
remaining attempts. On success the session, status, timestamp and tool
cache are installed; after the final failure the status is replaced by a
failed status carrying only the string of the last error, and a
ConnectionError naming the configured attempt count and the last error is
raised. -/
def connectAttempts (oracle : Nat → AttemptOutcome) (now : Nat) (cfg : MCPServerConfig)
    (st : ManagerState) (idx : Nat) (lastErr : Option String) : Nat → ConnectOutcome
  | 0 =>
    let cause := match lastErr with
      | some e => e
      | none => "None"
    { actions := []
      state := { st with connection_status :=
        { server_name := cfg.name, connected := false, error_message := some cause } }
      result := .error ("Failed to connect to " ++ cfg.name ++ " after "
        ++ toString cfg.retry_attempts ++ " attempts: " ++ cause) }
  | rem + 1 =>
    match oracle idx with
    | .ok tools =>
      { actions := [.attempt idx]
        state := { st with
          connected_server := some cfg
          client_session := true
          connection_status :=
            { server_name := cfg.name
              connected := true
              connection_time := some now
              available_tools := tools.map ToolInfo.name }
          available_tools := tools }
        result := .ok true }
    | .fail e =>
      let tail := connectAttempts oracle now cfg st (idx + 1) (some e) rem
      if rem > 0 then
        { tail with actions := .attempt idx :: .backoff (min (2 ^ idx) 10) :: tail.actions }
      else
        { tail with actions := .attempt idx :: tail.actions }

/-- Embedding of MCPClientManager.connect: if a client session is present
and the status says connected, the existing connection is torn down first;
then the retry loop runs over attempt indices 0 to retry_attempts - 1. -/
def connect (oracle : Nat → AttemptOutcome) (now : Nat) (cfg : MCPServerConfig)
    (st : ManagerState) : ConnectOutcome :=
  if st.client_session && st.connection_status.connected then
    let out := connectAttempts oracle now cfg (disconnect st) 0 none cfg.retry_attempts
    { out with actions := .tear_down :: out.actions }
  else
    connectAttempts oracle now cfg st 0 none cfg.retry_attempts

/-- True when an attempt outcome is a failure. -/
def isFail : AttemptOutcome → Bool
  | .ok _ => false
  | .fail _ => true

/-- Number of connection attempts recorded in an action trace. -/
def attemptCount : List ConnectAction → Nat
  | [] => 0
  | .attempt _ :: rest => attemptCount rest + 1
  | _ :: rest => attemptCount rest

/-- Backoff sleep durations recorded in an action trace, in order. -/
def backoffList : List ConnectAction → List Nat
  | [] => []
  | .backoff n :: rest => n :: backoffList rest
  | _ :: rest => backoffList rest

/-- Total backoff sleep recorded in an action trace. -/
def backoffTotal (acts : List ConnectAction) : Nat :=
  (backoffList acts).sum

theorem attemptCount_attempt_cons (i : Nat) (rest : List ConnectAction) :
    attemptCount (.attempt i :: rest) = attemptCount rest + 1 := rfl

theorem attemptCount_backoff_cons (n : Nat) (rest : List ConnectAction) :
    attemptCount (.backoff n :: rest) = attemptCount rest := rfl

theorem attemptCount_tear_down_cons (rest : List ConnectAction) :
    attemptCount (.tear_down :: rest) = attemptCount rest := rfl

theorem backoffList_attempt_cons (i : Nat) (rest : List ConnectAction) :
    backoffList (.attempt i :: rest) = backoffList rest := rfl

theorem backoffList_backoff_cons (n : Nat) (rest : List ConnectAction) :
    backoffList (.backoff n :: rest) = n :: backoffList rest := rfl

theorem backoffList_tear_down_cons (rest : List ConnectAction) :
    backoffList (.tear_down :: rest) = backoffList rest := rfl

theorem connectAttempts_fail_step
    (oracle : Nat → AttemptOutcome) (now : Nat) (cfg : MCPServerConfig) (st : ManagerState)
    (idx : Nat) (lastErr : Option String) (rem : Nat) (e : String)
    (hoi : oracle idx = .fail e) :
    connectAttempts oracle now cfg st idx lastErr (rem + 1)
      = if rem > 0 then
          { actions := .attempt idx :: .backoff (min (2 ^ idx) 10)
              :: (connectAttempts oracle now cfg st (idx + 1) (some e) rem).actions
            state := (connectAttempts oracle now cfg st (idx + 1) (some e) rem).state
            result := (connectAttempts oracle now cfg st (idx + 1) (some e) rem).result }
        else
          { actions := .attempt idx
              :: (connectAttempts oracle now cfg st (idx + 1) (some e) rem).actions
            state := (connectAttempts oracle now cfg st (idx + 1) (some e) rem).state
            result := (connectAttempts oracle now cfg st (idx + 1) (some e) rem).result } := by
  rw [connectAttempts, hoi]

theorem connectAttempts_allfail_attemptCount
    (oracle : Nat → AttemptOutcome) (h : ∀ i, isFail (oracle i) = true)
    (now : Nat) (cfg : MCPServerConfig) (st : ManagerState) :
    ∀ rem idx lastErr,
      attemptCount (connectAttempts oracle now cfg st idx lastErr rem).actions = rem := by
  intro rem
  induction rem with
  | zero => intro idx lastErr; rfl
  | succ k ih =>
    intro idx lastErr
    have hf := h idx
    cases hoi : oracle idx with
    | ok t => rw [hoi] at hf; simp [isFail] at hf
    | fail e =>
      rw [connectAttempts_fail_step oracle now cfg st idx lastErr k e hoi]
      rcases k with _ | m
      · simp only [Nat.lt_irrefl, if_neg, gt_iff_lt, not_false_iff]
        rw [attemptCount_attempt_cons, ih]
      · have hk : m + 1 > 0 := Nat.succ_pos m
        rw [if_pos hk, attemptCount_attempt_cons, attemptCount_backoff_cons, ih]

theorem connectAttempts_allfail_backoffList
    (oracle : Nat → AttemptOutcome) (h : ∀ i, isFail (oracle i) = true)
    (now : Nat) (cfg : MCPServerConfig) (st : ManagerState) :
    ∀ rem idx lastErr,
      backoffList (connectAttempts oracle now cfg st idx lastErr rem).actions
        = (List.range (rem - 1)).map (fun j => min (2 ^ (idx + j)) 10) := by
  intro rem
  induction rem with
  | zero => intro idx lastErr; rfl
  | succ k ih =>
    intro idx lastErr
    have hf := h idx
    cases hoi : oracle idx with
    | ok t => rw [hoi] at hf; simp [isFail] at hf
    | fail e =>
      rw [connectAttempts_fail_step oracle now cfg st idx lastErr k e hoi]
      rcases k with _ | m
      · simp only [Nat.lt_irrefl, if_neg, gt_iff_lt, not_false_iff]
        rw [backoffList_attempt_cons, ih]
        rfl
      · have hk : m + 1 > 0 := Nat.succ_pos m
        rw [if_pos hk, backoffList_attempt_cons, backoffList_backoff_cons, ih]
        simp only [Nat.add_sub_cancel]
        rw [List.range_succ_eq_map, List.map_cons, List.map_map]
        simp only [Nat.add_succ, Nat.succ_add, Nat.add_zero]
        congr 1

theorem connectAttempts_ok_step
    (oracle : Nat → AttemptOutcome) (now : Nat) (cfg : MCPServerConfig) (st : ManagerState)
    (idx : Nat) (lastErr : Option String) (rem : Nat) (tools : List ToolInfo)
    (hoi : oracle idx = .ok tools) :
    connectAttempts oracle now cfg st idx lastErr (rem + 1)
      = { actions := [.attempt idx]
          state := { st with
            connected_server := some cfg
            client_session := true
            connection_status :=
              { server_name := cfg.name
                connected := true
                connection_time := some now
                available_tools := tools.map ToolInfo.name }
            available_tools := tools }
          result := .ok true } := by
  rw [connectAttempts, hoi]

/-- C1: for every config with retry_attempts = N, when every attempt
fails, connect performs exactly N attempts, the backoff sleeps between
consecutive attempts are min(2 to the i, 10) for i in 0 .. N - 2 in that
order, and the total backoff sleep is the sum of that sequence. -/
theorem connect_allfail_attempts_and_backoff
    (oracle : Nat → AttemptOutcome) (now : Nat) (cfg : MCPServerConfig) (st : ManagerState)
    (h : ∀ i, isFail (oracle i) = true) :
    attemptCount (connect oracle now cfg st).actions = cfg.retry_attempts ∧
    backoffList (connect oracle now cfg st).actions
      = (List.range (cfg.retry_attempts - 1)).map (fun i => min (2 ^ i) 10) ∧
    backoffTotal (connect oracle now cfg st).actions
      = ((List.range (cfg.retry_attempts - 1)).map (fun i => min (2 ^ i) 10)).sum := by
  have hA := connectAttempts_allfail_attemptCount oracle h now cfg
  have hB := connectAttempts_allfail_backoffList oracle h now cfg
  have main : ∀ st2 : ManagerState,
      attemptCount (connectAttempts oracle now cfg st2 0 none cfg.retry_attempts).actions
        = cfg.retry_attempts ∧
      backoffList (connectAttempts oracle now cfg st2 0 none cfg.retry_attempts).actions
        = (List.range (cfg.retry_attempts - 1)).map (fun i => min (2 ^ i) 10) := by
    intro st2
    refine ⟨hA st2 cfg.retry_attempts 0 none, ?_⟩
    rw [hB st2 cfg.retry_attempts 0 none]
    simp only [Nat.zero_add]
  unfold connect
  by_cases hc : st.client_session && st.connection_status.connected
  · simp only [hc, if_pos]
    rw [attemptCount_tear_down_cons, backoffList_tear_down_cons, backoffTotal,
      backoffList_tear_down_cons]
    obtain ⟨m1, m2⟩ := main (disconnect st)
    exact ⟨m1, m2, by rw [m2]⟩
  · simp only [hc, if_neg, Bool.false_eq_true, not_false_iff]
    obtain ⟨m1, m2⟩ := main st
    exact ⟨m1, m2, by rw [backoffTotal, m2]⟩

/-- Config used by concrete witnesses: three retry attempts. -/
def cfgW : MCPServerConfig :=
  { name := "w", command := "c", args := [], env := [], timeout := 5, retry_attempts := 3 }

/-- Witness for C1: with retry_attempts = 3 and a constantly failing
oracle, connect performs 3 attempts, sleeps 1 then 2 time units, and the
total backoff is 3. -/
theorem connect_allfail_attempts_and_backoff_witness :
    attemptCount (connect (fun _ => .fail "nope") 0 cfgW {}).actions = 3 ∧
    backoffList (connect (fun _ => .fail "nope") 0 cfgW {}).actions = [1, 2] ∧
    backoffTotal (connect (fun _ => .fail "nope") 0 cfgW {}).actions = 3 := by
  have h := connect_allfail_attempts_and_backoff (fun _ => .fail "nope") 0 cfgW {}
    (fun _ => rfl)
  refine ⟨h.1, ?_, ?_⟩
  · rw [h.2.1]; rfl
  · rw [h.2.2]; rfl

theorem connectAttempts_allfail_result
    (oracle : Nat → AttemptOutcome) (f : Nat → String)
    (hor : ∀ i, oracle i = .fail (f i))
    (now : Nat) (cfg : MCPServerConfig) (st : ManagerState) :
    ∀ rem idx lastErr, 0 < rem →
      (connectAttempts oracle now cfg st idx lastErr rem).result
        = .error ("Failed to connect to " ++ cfg.name ++ " after "
            ++ toString cfg.retry_attempts ++ " attempts: " ++ f (idx + rem - 1)) ∧
      (connectAttempts oracle now cfg st idx lastErr rem).state.connection_status
        = { server_name := cfg.name, connected := false, connection_time := none,
            error_message := some (f (idx + rem - 1)), available_tools := [] } := by
  intro rem
  induction rem with
  | zero => intro idx lastErr hpos; exact absurd hpos (Nat.lt_irrefl 0)
  | succ k ih =>
    intro idx lastErr _
    rw [connectAttempts_fail_step oracle now cfg st idx lastErr k (f idx) (hor idx)]
    rcases k with _ | m
    · simp only [Nat.lt_irrefl, if_neg, gt_iff_lt, not_false_iff]
      exact ⟨rfl, rfl⟩
    · have hk : m + 1 > 0 := Nat.succ_pos m
      rw [if_pos hk]
      have := ih (idx + 1) (some (f idx)) hk
      have harg : idx + 1 + (m + 1) - 1 = idx + (m + 1 + 1) - 1 := by omega
      rw [harg] at this
      exact this

/-- C2 counterexample: with one always-failing attempt against the server
named srv, connect raises the full message naming the attempt count and
the cause, but the stored connection status carries only the cause boom as
its error message, not that full message. -/
theorem connect_failed_status_message_cex :
    (connect (fun _ => .fail "boom") 0
        { name := "srv", command := "false-binary", args := [], env := [],
          timeout := 5, retry_attempts := 1 } {}).result
      = .error "Failed to connect to srv after 1 attempts: boom" ∧
    (connect (fun _ => .fail "boom") 0
        { name := "srv", command := "false-binary", args := [], env := [],
          timeout := 5, retry_attempts := 1 } {}).state.connection_status.error_message
      = some "boom" ∧
    ("boom" : String) ≠ "Failed to connect to srv after 1 attempts: boom" :=
  ⟨rfl, rfl, by decide⟩

/-- C2 as amended: when every attempt fails, connect raises a
ConnectionError whose message names the attempt count and the last
underlying cause, and the stored connection status becomes a disconnected
status whose error message is only the string of the last cause (not the
full raised message). -/
theorem connect_allfail_raises_and_status_cause
    (oracle : Nat → AttemptOutcome) (f : Nat → String)
    (hor : ∀ i, oracle i = .fail (f i))
    (now : Nat) (cfg : MCPServerConfig) (st : ManagerState)
    (hN : 0 < cfg.retry_attempts) :
    (connect oracle now cfg st).result
      = .error ("Failed to connect to " ++ cfg.name ++ " after "
          ++ toString cfg.retry_attempts ++ " attempts: "
          ++ f (cfg.retry_attempts - 1)) ∧
    (connect oracle now cfg st).state.connection_status
      = { server_name := cfg.name, connected := false, connection_time := none,
          error_message := some (f (cfg.retry_attempts - 1)), available_tools := [] } := by
  have main := connectAttempts_allfail_result oracle f hor now cfg
  unfold connect
  by_cases hc : st.client_session && st.connection_status.connected
  · simp only [hc, if_pos]
    have := main (disconnect st) cfg.retry_attempts 0 none hN
    rw [Nat.zero_add] at this
    exact this
  · simp only [hc, if_neg, Bool.false_eq_true, not_false_iff]
    have := main st cfg.retry_attempts 0 none hN
    rw [Nat.zero_add] at this
    exact this

/-- Witness for the amended C2 with three failing attempts: the raised
message names 3 attempts and the last cause e2, the status stores only e2. -/
theorem connect_allfail_raises_and_status_cause_witness :
    (connect (fun i => .fail ("e" ++ toString i)) 0 cfgW {}).result
      = .error "Failed to connect to w after 3 attempts: e2" ∧
    (connect (fun i => .fail ("e" ++ toString i)) 0 cfgW {}).state.connection_status
      = { server_name := "w", connected := false, connection_time := none,
          error_message := some "e2", available_tools := [] } := by
  have h := connect_allfail_raises_and_status_cause
    (fun i => .fail ("e" ++ toString i)) (fun i => "e" ++ toString i)
    (fun _ => rfl) 0 cfgW {} (by decide)
  exact h

theorem connectAttempts_no_tear_down
    (oracle : Nat → AttemptOutcome) (now : Nat) (cfg : MCPServerConfig) (st : ManagerState) :
    ∀ rem idx lastErr,
      ConnectAction.tear_down ∉ (connectAttempts oracle now cfg st idx lastErr rem).actions := by
  intro rem
  induction rem with
  | zero =>
    intro idx lastErr
    rw [show (connectAttempts oracle now cfg st idx lastErr 0).actions = [] from rfl]
    simp
  | succ k ih =>
    intro idx lastErr
    cases hoi : oracle idx with
    | ok t =>
      rw [connectAttempts_ok_step oracle now cfg st idx lastErr k t hoi]
      simp
    | fail e =>
      rw [connectAttempts_fail_step oracle now cfg st idx lastErr k e hoi]
      rcases k with _ | m
      · simp only [Nat.lt_irrefl, if_neg, gt_iff_lt, not_false_iff]
        simp only [List.mem_cons, List.not_mem_nil, or_false]
        intro hmem
        rcases hmem with hmem | hmem
        · exact ConnectAction.noConfusion hmem
        · exact ih (idx + 1) (some e) hmem
      · have hk : m + 1 > 0 := Nat.succ_pos m
        rw [if_pos hk]
        simp only [List.mem_cons]
        intro hmem
        rcases hmem with hmem | hmem | hmem
        · exact ConnectAction.noConfusion hmem
        · exact ConnectAction.noConfusion hmem
        · exact ih (idx + 1) (some e) hmem

/-- C8: calling connect while a client session is present and the status
says connected first tears down the existing connection, and no further
tear down happens among the remaining actions of the call. -/
theorem connect_when_connected_tears_down_first
    (oracle : Nat → AttemptOutcome) (now : Nat) (cfg : MCPServerConfig) (st : ManagerState)
    (h1 : st.client_session = true) (h2 : st.connection_status.connected = true) :
    ∃ tl, (connect oracle now cfg st).actions = ConnectAction.tear_down :: tl
      ∧ ConnectAction.tear_down ∉ tl := by
  unfold connect
  rw [h1, h2]
  simp only [Bool.and_self, if_pos]
  exact ⟨_, rfl, connectAttempts_no_tear_down oracle now cfg (disconnect st)
    cfg.retry_attempts 0 none⟩

/-- Witness for C8: a manager already connected to the server old tears
down that connection first when connect is called again. -/
theorem connect_when_connected_tears_down_first_witness :
    ∃ tl, (connect (fun _ => .fail "x") 0 cfgW
        { client_session := true
          connection_status := { server_name := "old", connected := true } }).actions
      = ConnectAction.tear_down :: tl ∧ ConnectAction.tear_down ∉ tl :=
  connect_when_connected_tears_down_first (fun _ => .fail "x") 0 cfgW
    { client_session := true
      connection_status := { server_name := "old", connected := true } } rfl rfl

/-! ## Tool invocation (MCPClientManager.call_tool) -/

/-- Python exception classes raised by call_tool. -/
inductive PyExc where
  | connection_error : String → PyExc
  | value_error : String → PyExc

/-- Result of a call_tool call: whether the transport invoke primitive was
reached, and the returned value or the raised exception. -/
structure CallToolOutcome where
  transport_called : Bool
  result : Except PyExc PyVal

/-- Embedding of MCPClientManager.call_tool. The transport parameter is
the invoke primitive of the underlying client session, returning the
dumped result value or the message of the exception it raises. Guards in
code order: the is_connected check, the client-session check, the local
validation of the name against the cached tool list, and only then the
transport round-trip, whose failure is wrapped in a ConnectionError. -/
def call_tool (st : ManagerState)
    (transport : String → PyVal → Except String PyVal)
    (name : String) (arguments : PyVal) : CallToolOutcome :=
  if is_connected st = false then
    { transport_called := false
      result := .error (.connection_error "Not connected to any MCP server") }
  else if st.client_session = false then
    { transport_called := false
      result := .error (.connection_error "Client session is not available") }
  else if name ∉ st.available_tools.map ToolInfo.name then
    { transport_called := false
      result := .error (.value_error ("Tool " ++ pyQ ++ name ++ pyQ
        ++ " not found. Available tools: "
        ++ pyRepr (.pylist ((st.available_tools.map ToolInfo.name).map PyVal.pystr)))) }
  else
    match transport name arguments with
    | .ok v => { transport_called := true, result := .ok v }
    | .error e =>
      { transport_called := true
        result := .error (.connection_error ("Tool execution failed: " ++ e)) }

/-- C3: call_tool fails with the not-connected ConnectionError and no
transport round-trip when the manager is not connected; when connected but
the name is absent from the cached tool list it fails by local validation
with no transport round-trip; and when connected with a cached name, a
transport failure is wrapped and re-raised as a ConnectionError rather
than swallowed. -/
theorem call_tool_error_paths (st : ManagerState)
    (transport : String → PyVal → Except String PyVal)
    (name : String) (arguments : PyVal) :
    (is_connected st = false →
      (call_tool st transport name arguments).transport_called = false ∧
      (call_tool st transport name arguments).result
        = .error (.connection_error "Not connected to any MCP server")) ∧
    (is_connected st = true → name ∉ st.available_tools.map ToolInfo.name →
      (call_tool st transport name arguments).transport_called = false ∧
      (call_tool st transport name arguments).result
        = .error (.value_error ("Tool " ++ pyQ ++ name ++ pyQ
            ++ " not found. Available tools: "
            ++ pyRepr (.pylist ((st.available_tools.map ToolInfo.name).map PyVal.pystr))))) ∧
    (is_connected st = true → name ∈ st.available_tools.map ToolInfo.name →
      ∀ e, transport name arguments = .error e →
        (call_tool st transport name arguments).transport_called = true ∧
        (call_tool st transport name arguments).result
          = .error (.connection_error ("Tool execution failed: " ++ e))) := by
  refine ⟨?_, ?_, ?_⟩
  · intro hdisc
    rw [call_tool, if_pos hdisc]
    exact ⟨rfl, rfl⟩
  · intro hconn habs
    have hsess : st.client_session = true := by
      have := hconn
      rw [is_connected, Bool.and_eq_true] at this
      exact this.2
    rw [call_tool, if_neg (by rw [hconn]; simp), if_neg (by rw [hsess]; simp),
      if_pos habs]
    exact ⟨rfl, rfl⟩
  · intro hconn hmem e htr
    have hsess : st.client_session = true := by
      have := hconn
      rw [is_connected, Bool.and_eq_true] at this
      exact this.2
    rw [call_tool, if_neg (by rw [hconn]; simp), if_neg (by rw [hsess]; simp),
      if_neg (by simp [hmem]), htr]
    exact ⟨rfl, rfl⟩

/-- Connected manager state with one cached tool named search, used by
concrete witnesses. -/
def stSearch : ManagerState :=
  { client_session := true
    connection_status :=
      { server_name := "w", connected := true, available_tools := ["search"] }
    available_tools := [{ name := "search", description := "", parameters := .pydict [] }] }

/-- Witness for C3: the three error paths at concrete inputs, with a
disconnected manager, an unknown tool name, and a failing transport. -/
theorem call_tool_error_paths_witness :
    ((call_tool {} (fun _ _ => .ok .pynone) "search" .pynone).transport_called = false ∧
      (call_tool {} (fun _ _ => .ok .pynone) "search" .pynone).result
        = .error (.connection_error "Not connected to any MCP server")) ∧
    ((call_tool stSearch (fun _ _ => .ok .pynone) "write" .pynone).transport_called
        = false) ∧
    ((call_tool stSearch (fun _ _ => .error "boom") "search" .pynone).transport_called
        = true ∧
      (call_tool stSearch (fun _ _ => .error "boom") "search" .pynone).result
        = .error (.connection_error "Tool execution failed: boom")) := by
  refine ⟨?_, ?_, ?_⟩
  · exact (call_tool_error_paths {} (fun _ _ => .ok .pynone) "search" .pynone).1 rfl
  · exact ((call_tool_error_paths stSearch (fun _ _ => .ok .pynone) "write" .pynone).2.1
      rfl (by decide)).1
  · exact (call_tool_error_paths stSearch (fun _ _ => .error "boom") "search"
      .pynone).2.2 rfl (by decide) "boom" rfl

/-! ## Tool adapter wrapper (MCPToolProxy.create_strands_tool) -/

/-- Embedding of the per-item conversion inside mcp_tool_wrapper: for a
dictionary item, str of its text entry when present, otherwise str of the
item itself; for any other item, str of the item. -/
def content_item_str (item : PyVal) : String :=
  match item with
  | .pydict es =>
    match pyLookup "text" es with
    | some t => pyStr t
    | none => pyStr item
  | _ => pyStr item

/-- Embedding of mcp_tool_wrapper from mcp.py: the call_result parameter
is the outcome of the delegated call_tool invocation (the dumped result
value, or the message of the exception it raised). On an exception the
wrapper returns the formatted error string instead of propagating; on
success, a dictionary result with a content list is joined line by line
with per-item text extraction, a non-list content is stringified, and any
other result is stringified whole. -/
def mcp_tool_wrapper (tool_name : String) (call_result : Except String PyVal) : String :=
  match call_result with
  | .error e => "Error executing tool " ++ pyQ ++ tool_name ++ pyQ ++ ": " ++ e
  | .ok result =>
    match result with
    | .pydict es =>
      match pyLookup "content" es with
      | some content =>
        match content with
        | .pylist items => String.intercalate "\n" (items.map content_item_str)
        | _ => pyStr content
      | none => pyStr result
    | _ => pyStr result

/-- Modelled from the words of claim C4: on success, if the result carries
a content field that is a sequence, return the stringified items joined
with newlines, else return the stringified whole result; on an exception
return the formatted error string. -/
def claim_wrapper (tool_name : String) (call_result : Except String PyVal) : String :=
  match call_result with
  | .error e => "Error executing tool " ++ pyQ ++ tool_name ++ pyQ ++ ": " ++ e
  | .ok result =>
    match result with
    | .pydict es =>
      match pyLookup "content" es with
      | some (.pylist items) => String.intercalate "\n" (items.map pyStr)
      | _ => pyStr result
    | _ => pyStr result

/-- Modelled from claim C4 as amended: identical to the claim except that
a dictionary item of the content list contributes its text entry when it
has one, a content value that is not a sequence is stringified by itself,
and only a result without a content field is stringified whole. -/
def amended_wrapper (tool_name : String) (call_result : Except String PyVal) : String :=
  match call_result with
  | .error e => "Error executing tool " ++ pyQ ++ tool_name ++ pyQ ++ ": " ++ e
  | .ok result =>
    match result with
    | .pydict es =>
      match pyLookup "content" es with
      | some (.pylist items) =>
        String.intercalate "\n" (items.map (fun item =>
          match item with
          | .pydict ies =>
            match pyLookup "text" ies with
            | some t => pyStr t
            | none => pyStr item
          | _ => pyStr item))
      | some content => pyStr content
      | none => pyStr result
    | _ => pyStr result

/-- C4 counterexample: for a successful result whose content list holds
the dictionary item with text hi, the code returns hi (the extracted text
field), not the stringified item demanded by the claim, so the two
disagree at this input. -/
theorem mcp_tool_wrapper_stringified_items_cex :
    mcp_tool_wrapper "t"
        (.ok (.pydict [("content", .pylist [.pydict [("text", .pystr "hi")]])])) = "hi" ∧
    claim_wrapper "t"
        (.ok (.pydict [("content", .pylist [.pydict [("text", .pystr "hi")]])]))
      = "\x7b" ++ pyQ ++ "text" ++ pyQ ++ ": " ++ pyQ ++ "hi" ++ pyQ ++ "\x7d" ∧
    mcp_tool_wrapper "t"
        (.ok (.pydict [("content", .pylist [.pydict [("text", .pystr "hi")]])]))
      ≠ claim_wrapper "t"
        (.ok (.pydict [("content", .pylist [.pydict [("text", .pystr "hi")]])])) :=
  ⟨rfl, rfl, by decide⟩

/-- C4 as amended: the wrapper never raises (it is a total function into
strings), returns the formatted error string on any exception from the
delegated invocation, and on success behaves exactly as the amended
description: newline-joined per-item strings with text extraction for a
content list, the stringified content when content is not a sequence, and
the stringified whole result otherwise. -/
theorem mcp_tool_wrapper_matches_amended_claim
    (tool_name : String) (call_result : Except String PyVal) :
    mcp_tool_wrapper tool_name call_result = amended_wrapper tool_name call_result := by
  cases call_result with
  | error e => rfl
  | ok result =>
    cases result with
    | pydict es =>
      rw [mcp_tool_wrapper, amended_wrapper]
      cases hc : pyLookup "content" es with
      | none => rfl
      | some content => cases content <;> rfl
    | pynone => rfl
    | pystr s => rfl
    | pyint n => rfl
    | pybool b => rfl
    | pylist xs => rfl

/-! ## Stream events and event normalization (session.py) -/

/-- Embedding of StreamEventType from config.py. -/
inductive StreamEventType where
  | text : StreamEventType
  | tool_use : StreamEventType
  | error : StreamEventType
  | complete : StreamEventType
  | status : StreamEventType
deriving DecidableEq

/-- Embedding of StreamEvent from config.py. The creation timestamp is an
abstract tick defaulting to zero. -/
structure StreamEvent where
  event_type : StreamEventType
  data : PyVal
  timestamp : Nat := 0

/-- Raw event from the reasoning engine, duck typed: each attribute access
either raises (error), finds the attribute missing (ok none) or yields a
value, and taking str of the event either raises or yields a string. -/
structure StrandsEvent where
  type_attr : Except String (Option PyVal) := .ok none
  text_attr : Except String (Option PyVal) := .ok none
  tool_name_attr : Except String (Option PyVal) := .ok none
  arguments_attr : Except String (Option PyVal) := .ok none
  result_attr : Except String (Option PyVal) := .ok none
  message_attr : Except String (Option PyVal) := .ok none
  str_res : Except String String := .ok ""

/-- Python equality of a dynamic value against a string literal: true only
for the equal string, false for every non-string value. -/
def pyIsStr (v : PyVal) (s : String) : Bool :=
  match v with
  | .pystr t => t == s
  | _ => false

/-- Embedding of the try body of SessionManager._convert_strands_event:
the type attribute is probed, the three recognized type tags build their
events (with getattr defaults, and with the str fallback computed eagerly
where the code passes it as a default argument), any other or missing type
falls back to a text event holding str of the raw event, and every raise
inside the body surfaces as an error of this computation. -/
def convert_strands_event_exc (ev : StrandsEvent) : Except String StreamEvent :=
  match ev.type_attr with
  | .error m => .error m
  | .ok (some tv) =>
    if pyIsStr tv "text" then
      match ev.text_attr with
      | .error m => .error m
      | .ok (some t) => .ok { event_type := .text, data := t }
      | .ok none =>
        match ev.str_res with
        | .error m => .error m
        | .ok s => .ok { event_type := .text, data := .pystr s }
    else if pyIsStr tv "tool_use" then
      match ev.tool_name_attr with
      | .error m => .error m
      | .ok tno =>
        match ev.arguments_attr with
        | .error m => .error m
        | .ok argo =>
          match ev.result_attr with
          | .error m => .error m
          | .ok reso =>
            .ok { event_type := .tool_use
                  data := .pydict
                    [("tool_name", tno.getD (.pystr "unknown")),
                     ("arguments", argo.getD (.pydict [])),
                     ("result", reso.getD .pynone)] }
    else if pyIsStr tv "error" then
      match ev.str_res with
      | .error m => .error m
      | .ok s =>
        match ev.message_attr with
        | .error m => .error m
        | .ok (some msg) => .ok { event_type := .error, data := msg }
        | .ok none => .ok { event_type := .error, data := .pystr s }
    else
      match ev.str_res with
      | .error m => .error m
      | .ok s => .ok { event_type := .text, data := .pystr s }
  | .ok none =>
    match ev.str_res with
    | .error m => .error m
    | .ok s => .ok { event_type := .text, data := .pystr s }

/-- Embedding of SessionManager._convert_strands_event including its
catch-all handler: a raise inside the body becomes an error event
describing the conversion failure, so conversion itself never raises. -/
def convert_strands_event (ev : StrandsEvent) : StreamEvent :=
  match convert_strands_event_exc ev with
  | .ok out => out
  | .error m =>
    { event_type := .error, data := .pystr ("Event conversion error: " ++ m) }

/-- Raw events taking the documented fallback path: the type attribute is
missing, or present but none of the three recognized tags. -/
def fallback_type (ev : StrandsEvent) : Prop :=
  ev.type_attr = .ok none ∨
  ∃ v, ev.type_attr = .ok (some v) ∧ pyIsStr v "text" = false ∧
    pyIsStr v "tool_use" = false ∧ pyIsStr v "error" = false

/-- C5: conversion is a total function into stream events (so it never
raises); a raw event with a missing or unrecognized type tag whose
stringification succeeds maps to a text event holding that string; and
whenever the inspection body raises, the raise is caught and mapped to an
error event describing the conversion failure. -/
theorem convert_strands_event_fallback_and_catch (ev : StrandsEvent) :
    (∀ s, fallback_type ev → ev.str_res = .ok s →
      convert_strands_event ev = { event_type := .text, data := .pystr s }) ∧
    (∀ m, convert_strands_event_exc ev = .error m →
      convert_strands_event ev
        = { event_type := .error, data := .pystr ("Event conversion error: " ++ m) }) := by
  constructor
  · intro s hfb hs
    have hexc : convert_strands_event_exc ev = .ok { event_type := .text, data := .pystr s } := by
      rcases hfb with hnone | ⟨v, hv, h1, h2, h3⟩
      · rw [convert_strands_event_exc.eq_def, hnone]
        simp [hs]
      · rw [convert_strands_event_exc.eq_def, hv]
        simp [h1, h2, h3, hs]
    rw [convert_strands_event, hexc]
  · intro m hm
    rw [convert_strands_event, hm]

/-- Witness for C5: an event with no type attribute and stringification
raw becomes Text raw, and an event whose type attribute access raises boom
becomes the conversion-error event. -/
theorem convert_strands_event_fallback_and_catch_witness :
    convert_strands_event { str_res := .ok "raw" }
      = { event_type := .text, data := .pystr "raw" } ∧
    convert_strands_event { type_attr := .error "boom" }
      = { event_type := .error, data := .pystr "Event conversion error: boom" } :=
  ⟨(convert_strands_event_fallback_and_catch { str_res := .ok "raw" }).1 "raw"
      (Or.inl rfl) rfl,
   (convert_strands_event_fallback_and_catch { type_attr := .error "boom" }).2 "boom" rfl⟩

/-! ## Session coordinator (SessionManager) -/

/-- Mutable fields of SessionManager from session.py. The reasoning-engine
handle and the streaming handler are modelled by presence flags and the
loaded tool callables by abstract identifiers. -/
structure SessionMState where
  session_active : Bool := false
  agent_present : Bool := false
  tools : List String := []
  streaming_handler : Bool := false

/-- Embedding of SessionManager.end_session: a no-op when the session is
not active, otherwise every handle is cleared and the active flag reset. -/
def end_session (st : SessionMState) : SessionMState :=
  if st.session_active = false then st
  else
    { session_active := false
      agent_present := false
      tools := []
      streaming_handler := false }

/-- Embedding of SessionManager.start_session. The connected flag is the
report of the bound client manager; tools_res is the outcome of loading
the strands tools and agent_res the outcome of constructing the agent.
State mutations happen in code order, and any raise runs end_session and
re-raises as the wrapped failed-to-start error. -/
def start_session (st : SessionMState) (connected : Bool)
    (tools_res : Except String (List String)) (agent_res : Except String Unit) :
    SessionMState × Except String Unit :=
  if st.session_active then (st, .ok ())
  else if connected = false then
    (end_session st,
      .error "Failed to start session: MCP client is not connected. Connect to a server first.")
  else
    match tools_res with
    | .error e => (end_session st, .error ("Failed to start session: " ++ e))
    | .ok ts =>
      let st1 := { st with tools := ts }
      match agent_res with
      | .error e => (end_session st1, .error ("Failed to start session: " ++ e))
      | .ok _ =>
        ({ st1 with
            agent_present := true
            streaming_handler := true
            session_active := true }, .ok ())

/-- C7: at the concrete failing input (a fresh inactive coordinator, a
connected client, a loaded tool list [t1], and an agent constructor that
raises), start_session re-raises the wrapped failure and leaves the
session inactive, but the cached tool list is NOT cleared: the cleanup
call inside the exception handler is a no-op because the session was never
marked active, contradicting the claimed forced cleanup. -/
theorem start_session_failure_keeps_tools :
    (start_session {} true (.ok ["t1"]) (.error "Agent init failed")).1
      = { session_active := false, agent_present := false, tools := ["t1"],
          streaming_handler := false } ∧
    (start_session {} true (.ok ["t1"]) (.error "Agent init failed")).2
      = .error "Failed to start session: Agent init failed" ∧
    (["t1"] : List String) ≠ [] :=
  ⟨rfl, rfl, by decide⟩

/-- Observable outcome of one process_input call: the stream events it
yielded in order, the message of the exception it raised past its boundary
if any, and whether the reasoning engine was invoked. -/
structure ProcessOutcome where
  yielded : List StreamEvent
  raised : Option String
  engine_called : Bool

/-- Characters stripped by the Python str.strip default (ASCII range). -/
def is_py_space (c : Char) : Bool :=
  c == Char.ofNat 32 || c == Char.ofNat 9 || c == Char.ofNat 10 || c == Char.ofNat 13
    || c == Char.ofNat 11 || c == Char.ofNat 12

/-- Embedding of the Python str.strip() default call. -/
def py_strip (s : String) : String :=
  String.mk (((s.toList.dropWhile is_py_space).reverse.dropWhile is_py_space).reverse)

/-- Embedding of SessionManager.process_input. The engine parameter models
agent.stream_async for this turn: the raw events it yields before either
finishing (none) or raising mid-stream with a message. The inactive guard
raises before anything is yielded; blank input yields exactly one error
event without calling the engine; otherwise a status event, the converted
engine events, and a final complete event are yielded, with a mid-stream
raise caught and turned into a final error event instead. -/
def process_input (st : SessionMState)
    (engine : String → List StrandsEvent × Option String)
    (user_input : String) : ProcessOutcome :=
  if !st.session_active || !st.agent_present then
    { yielded := []
      raised := some "Session is not active. Call start_session() first."
      engine_called := false }
  else if py_strip user_input = "" then
    { yielded := [{ event_type := .error, data := .pystr "Empty input provided" }]
      raised := none
      engine_called := false }
  else
    let run := engine user_input
    let evs := run.1.map convert_strands_event
    match run.2 with
    | none =>
      { yielded := { event_type := .status, data := .pystr "Processing your request..." }
          :: evs ++ [{ event_type := .complete, data := .pystr "Response complete" }]
        raised := none
        engine_called := true }
    | some e =>
      { yielded := { event_type := .status, data := .pystr "Processing your request..." }
          :: evs ++ [{ event_type := .error, data := .pystr ("Error processing input: " ++ e) }]
        raised := none
        engine_called := true }

/-- C6: for an active session with an agent present, blank input (empty
after stripping) yields exactly one event, that event is an error event,
nothing is raised, and the reasoning engine is never called. -/
theorem process_input_blank_single_error (st : SessionMState)
    (engine : String → List StrandsEvent × Option String) (input : String)
    (ha : st.session_active = true) (hg : st.agent_present = true)
    (hb : py_strip input = "") :
    (process_input st engine input).yielded
      = [{ event_type := .error, data := .pystr "Empty input provided" }] ∧
    (process_input st engine input).yielded.length = 1 ∧
    (∀ e ∈ (process_input st engine input).yielded,
      e.event_type = StreamEventType.error) ∧
    (process_input st engine input).raised = none ∧
    (process_input st engine input).engine_called = false := by
  have hout : process_input st engine input
      = { yielded := [{ event_type := .error, data := .pystr "Empty input provided" }]
          raised := none
          engine_called := false } := by
    rw [process_input, ha, hg, if_neg (by simp), if_pos hb]
  rw [hout]
  refine ⟨rfl, rfl, ?_, rfl, rfl⟩
  intro e he
  rcases List.mem_singleton.mp he with rfl
  rfl

/-- Witness for C6: a single space as input for an active session yields
only the empty-input error event and does not call the engine. -/
theorem process_input_blank_single_error_witness :
    (process_input { session_active := true, agent_present := true }
        (fun _ => ([], none)) " ").yielded
      = [{ event_type := .error, data := .pystr "Empty input provided" }] ∧
    (process_input { session_active := true, agent_present := true }
        (fun _ => ([], none)) " ").engine_called = false := by
  have h := process_input_blank_single_error
    { session_active := true, agent_present := true } (fun _ => ([], none)) " "
    rfl rfl rfl
  exact ⟨h.1, h.2.2.2.2⟩

/-- C10: whenever the session is not active or the agent handle is absent,
process_input raises the not-active RuntimeError before yielding any
stream event (for every input, including blank ones), and the engine is
not called. -/
theorem process_input_inactive_raises_before_yield (st : SessionMState)
    (engine : String → List StrandsEvent × Option String) (input : String)
    (h : st.session_active = false ∨ st.agent_present = false) :
    (process_input st engine input).yielded = [] ∧
    (process_input st engine input).raised
      = some "Session is not active. Call start_session() first." ∧
    (process_input st engine input).engine_called = false := by
  have hcond : (!st.session_active || !st.agent_present) = true := by
    rcases h with h | h <;> rw [h] <;> simp
  rw [process_input, hcond]
  exact ⟨rfl, rfl, rfl⟩

/-- Witness for C10: an inactive fresh coordinator raises the not-active
error on empty input without yielding events. -/
theorem process_input_inactive_raises_before_yield_witness :
    (process_input {} (fun _ => ([], none)) "").yielded = [] ∧
    (process_input {} (fun _ => ([], none)) "").raised
      = some "Session is not active. Call start_session() first." ∧
    (process_input {} (fun _ => ([], none)) "").engine_called = false :=
  process_input_inactive_raises_before_yield {} (fun _ => ([], none)) ""
    (Or.inl rfl)

/-! ## Usage tracking (StreamingHandler) -/

/-- Embedding of one entry of the tool-execution tracking dictionary of
StreamingHandler. -/
structure ExecRecord where
  tool_name : PyVal
  arguments : PyVal
  result : PyVal
  timestamp : Nat
  status : String

/-- Mutable fields of StreamingHandler from session.py that the tracked
claims observe. Dictionaries are association lists in insertion order. -/
structure HandlerState where
  tool_usage_count : List (PyVal × Nat) := []
  total_events_processed : Nat := 0
  current_tool_executions : List (String × ExecRecord) := []
  response_buffer : String := ""

/-- Python dict get with default 0, over keys compared by Python value
equality. -/
def count_lookup (m : List (PyVal × Nat)) (k : PyVal) : Nat :=
  match m with
  | [] => 0
  | e :: es => if pyBeq e.1 k then e.2 else count_lookup es k

/-- Python dict update over keys compared by Python value equality: an
existing key keeps its position, a new key is appended. -/
def count_put (k : PyVal) (v : Nat) : List (PyVal × Nat) → List (PyVal × Nat)
  | [] => [(k, v)]
  | e :: es => if pyBeq e.1 k then (e.1, v) :: es else e :: count_put k v es

/-- Python dict lookup over string keys. -/
def exec_lookup (k : String) : List (String × ExecRecord) → Option ExecRecord
  | [] => none
  | e :: es => if e.1 = k then some e.2 else exec_lookup k es

/-- Python dict update over string keys: an existing key keeps its
position, a new key is appended. -/
def exec_put (k : String) (r : ExecRecord) : List (String × ExecRecord) → List (String × ExecRecord)
  | [] => [(k, r)]
  | e :: es => if e.1 = k then (e.1, r) :: es else e :: exec_put k r es

/-- Embedding of StreamingHandler._handle_tool_use_event: for dictionary
data carrying a tool_name, the per-name counter is incremented, and an
execution record is stored under the key built from the name and the new
per-name count, with status completed exactly when the result KEY is
present in the data (even when its value is null). -/
def handle_tool_use_event (st : HandlerState) (ev : StreamEvent) : HandlerState :=
  match ev.data with
  | .pydict es =>
    match pyLookup "tool_name" es with
    | some tn =>
      let n := count_lookup st.tool_usage_count tn + 1
      let record : ExecRecord :=
        { tool_name := tn
          arguments := (pyLookup "arguments" es).getD (.pydict [])
          result := (pyLookup "result" es).getD .pynone
          timestamp := ev.timestamp
          status := if (pyLookup "result" es).isSome then "completed" else "executing" }
      { st with
        tool_usage_count := count_put tn n st.tool_usage_count
        current_tool_executions :=
          exec_put (pyStr tn ++ "_" ++ toString n) record st.current_tool_executions }
    | none => st
  | _ => st

/-- Embedding of StreamingHandler.handle_stream_event: the total event
counter always increments, text events append str of their data to the
response buffer, tool-use events update the tracking dictionaries, and the
other event types only log. -/
def handle_stream_event (st : HandlerState) (ev : StreamEvent) : HandlerState :=
  let st1 := { st with total_events_processed := st.total_events_processed + 1 }
  match ev.event_type with
  | .text => { st1 with response_buffer := st1.response_buffer ++ pyStr ev.data }
  | .tool_use => handle_tool_use_event st1 ev
  | _ => st1

/-- Modelled from the words of claim C9: status executing when no result
is present yet in the event data, where both a missing result key and a
null result value (the form the event converter emits while no result
exists yet) mean that no result is present. -/
def claim_status (es : List (String × PyVal)) : String :=
  match pyLookup "result" es with
  | none => "executing"
  | some .pynone => "executing"
  | some _ => "completed"

/-- C9 counterexample: a tool-use event whose data carries the result key
with value null (exactly the shape the event converter produces while no
result is present yet) is recorded with status completed, while the claim
mandates executing for an event without a result. -/
theorem handle_tool_use_null_result_status_cex :
    exec_lookup "t_1" (handle_stream_event {}
        { event_type := .tool_use
          data := .pydict [("tool_name", .pystr "t"), ("arguments", .pydict []),
            ("result", .pynone)] }).current_tool_executions
      = some { tool_name := .pystr "t", arguments := .pydict [], result := .pynone,
               timestamp := 0, status := "completed" } ∧
    claim_status [("tool_name", .pystr "t"), ("arguments", .pydict []),
        ("result", .pynone)]
      = "executing" ∧
    ("completed" : String) ≠ "executing" :=
  ⟨rfl, rfl, by decide⟩

theorem exec_lookup_put (k : String) (r : ExecRecord) :
    ∀ l, exec_lookup k (exec_put k r l) = some r := by
  intro l
  induction l with
  | nil => simp [exec_put, exec_lookup]
  | cons e es ih =>
    by_cases he : e.1 = k
    · rw [exec_put, if_pos he, exec_lookup, if_pos he]
    · rw [exec_put, if_neg he, exec_lookup, if_neg he, ih]

theorem count_lookup_put (k : PyVal) (v : Nat) :
    ∀ m, count_lookup (count_put k v m) k = v := by
  intro m
  induction m with
  | nil => simp [count_put, count_lookup, pyBeq_refl]
  | cons e es ih =>
    by_cases he : pyBeq e.1 k = true
    · rw [count_put, if_pos he, count_lookup, if_pos he]
    · rw [count_put, if_neg (by simp [he]), count_lookup, if_neg (by simp [he]), ih]

/-- C9 as amended: every tool-use event whose data is a dictionary with a
tool_name is recorded under the composite key of the stringified name and
the new per-name occurrence count, the per-name counter becomes that
count, and the stored status is completed exactly when the result KEY is
present in the event data (even when its value is null, as it always is
for pending results of converter-built events), and executing only when
the key is absent. -/
theorem handle_tool_use_record_keyed_and_status
    (st : HandlerState) (ev : StreamEvent) (es : List (String × PyVal)) (tn : PyVal)
    (hty : ev.event_type = .tool_use) (hdata : ev.data = .pydict es)
    (htn : pyLookup "tool_name" es = some tn) :
    exec_lookup (pyStr tn ++ "_" ++ toString (count_lookup st.tool_usage_count tn + 1))
        (handle_stream_event st ev).current_tool_executions
      = some { tool_name := tn
               arguments := (pyLookup "arguments" es).getD (.pydict [])
               result := (pyLookup "result" es).getD .pynone
               timestamp := ev.timestamp
               status := if (pyLookup "result" es).isSome then "completed"
                 else "executing" } ∧
    count_lookup (handle_stream_event st ev).tool_usage_count tn
      = count_lookup st.tool_usage_count tn + 1 := by
  have hmain : handle_stream_event st ev
      = handle_tool_use_event
          { st with total_events_processed := st.total_events_processed + 1 } ev := by
    rw [handle_stream_event, hty]
  rw [hmain, handle_tool_use_event, hdata]
  simp only [htn]
  exact ⟨exec_lookup_put _ _ _, count_lookup_put _ _ _⟩

/-- Witness for the amended C9: recording a tool-use event named a with no
result key on a fresh handler stores the record a_1 with status executing
and per-name count 1. -/
theorem handle_tool_use_record_keyed_and_status_witness :
    exec_lookup "a_1" (handle_stream_event {}
        { event_type := .tool_use
          data := .pydict [("tool_name", .pystr "a")] }).current_tool_executions
      = some { tool_name := .pystr "a", arguments := .pydict [], result := .pynone,
               timestamp := 0, status := "executing" } ∧
    count_lookup (handle_stream_event {}
        { event_type := .tool_use
          data := .pydict [("tool_name", .pystr "a")] }).tool_usage_count (.pystr "a")
      = 1 := by
  have h := handle_tool_use_record_keyed_and_status {}
    { event_type := .tool_use, data := .pydict [("tool_name", .pystr "a")] }
    [("tool_name", .pystr "a")] (.pystr "a") rfl rfl rfl
  exact h

end EclairCP
